import Mathlib

/-!
Verification of the GitMan VS Code extension core: a shallow embedding of
the Git Action Dispatcher (SidebarProvider.handleGitAction), the Repository
Facade (GitService) and the Device-Flow Authenticator polling loop
(AuthService.pollForToken), translated from the TypeScript source, together
with proofs about the behaviours the specification describes.

String manipulation from the source (trim, split, replace, the two regular
expressions) is modelled by structurally recursive functions over character
lists so that every definition evaluates inside the kernel.
-/

set_option maxRecDepth 8000

/-- JavaScript String.prototype.trim, as applied to captured stdout:
whitespace removed from both ends (the JS whitespace class is approximated
by Char.isWhitespace). -/
def jsTrim (s : String) : String :=
  String.mk (((s.data.dropWhile Char.isWhitespace).reverse.dropWhile Char.isWhitespace).reverse)

/-- Splits a character list at every character satisfying p, keeping empty
segments, exactly as JavaScript String.prototype.split with a character
class does (e.g. "a//b" yields ["a", "", "b"]). -/
def splitOnPred (p : Char → Bool) : List Char → List (List Char)
  | [] => [[]]
  | c :: cs =>
    match splitOnPred p cs with
    | [] => [[c]]
    | h :: t => if p c then [] :: h :: t else (c :: h) :: t

/-- JavaScript String.prototype.replace with a plain-string pattern: only
the first occurrence of the pattern is replaced. -/
def replaceFirstAux (pat rep : List Char) : List Char → List Char
  | [] => if pat.isPrefixOf ([] : List Char) then rep else []
  | c :: cs =>
    if pat.isPrefixOf (c :: cs) then rep ++ (c :: cs).drop pat.length
    else c :: replaceFirstAux pat rep cs

/-- String form of replaceFirstAux. -/
def jsReplaceOnce (s pat rep : String) : String :=
  String.mk (replaceFirstAux pat.data rep.data s.data)

/-- Outcome of one child-process execution, as observed through the callback
of cp.exec: either the raw standard output (on zero exit status) or the
failure text (the source rejects with stderr when non-empty, otherwise the
error message; the two are collapsed into one string here). -/
inductive ExecResult where
  | ok (stdout : String)
  | err (msg : String)
deriving Repr, DecidableEq

/-- Shorthand for recognising the failing case of an ExecResult. -/
def ExecResult.isErr : ExecResult → Bool
  | ExecResult.ok _ => false
  | ExecResult.err _ => true

/-- The environment a GitService instance runs in: the optional workspace
root resolved from vscode.workspace.workspaceFolders at construction, and
the behaviour of the external shell, keyed by the exact command line handed
to cp.exec. -/
structure GitEnv where
  workspaceRoot : Option String
  shell : String → ExecResult

/-- Result of a GitService computation: the value or thrown error message,
paired with the list of command lines actually handed to cp.exec, in order. -/
abbrev GitM (α : Type) := Except String α × List String

/-- Sequencing of two GitService steps: the second runs only when the first
succeeded (awaiting a rejected promise throws), and the command logs are
concatenated. -/
def seqG {α β : Type} (x : GitM α) (f : α → GitM β) : GitM β :=
  match x with
  | (Except.ok a, l) =>
    match f a with
    | (r, m) => (r, l ++ m)
  | (Except.error e, l) => (Except.error e, l)

deriving instance DecidableEq for Except

namespace GitService

/-- GitService.exec: throws "No workspace folder open" when no workspace
root is set; otherwise runs the command through the shell, resolving with
trimmed stdout on success and rejecting with the failure text otherwise. -/
def exec (env : GitEnv) (command : String) : GitM String :=
  match env.workspaceRoot with
  | none => (Except.error "No workspace folder open", [])
  | some _ =>
    match env.shell command with
    | ExecResult.ok stdout => (Except.ok (jsTrim stdout), [command])
    | ExecResult.err m => (Except.error m, [command])

end GitService

/-- Capture group 1 of the JavaScript regular expression match
remoteUrl.match of the pattern: slash, then a lazy run of one or more
non-slash characters, then an optional literal ".git", anchored at the end
of the string.  Because the captured run excludes slashes and must reach
the end of the string (up to the optional ".git", itself slash-free), a
match always sits at the last slash of the string.  The lazy quantifier
makes the capture as short as possible, so a ".git" suffix is stripped
exactly when at least one character remains before it. -/
def repoNameFromUrl (url : String) : Option String :=
  match splitOnPred (fun c => c == '/') url.data with
  | [] => none
  | [_] => none
  | parts@(_ :: _ :: _) =>
    let seg := parts.getLastD []
    if seg.isEmpty then none
    else if ".git".data.isSuffixOf seg ∧ 4 < seg.length then
      some (String.mk (seg.take (seg.length - 4)))
    else some (String.mk seg)

/-- Last path segment of the working directory, as computed by the source:
split on slash or backslash, take the last element, and fall back to
"Unknown" when that element is empty (the JS expression uses the
falsy-or operator on the popped segment). -/
def folderName (wd : String) : String :=
  let seg := (splitOnPred (fun c => c == '/' || c == '\\') wd.data).getLastD []
  if seg.isEmpty then "Unknown" else String.mk seg

/-- Length, in characters, of the lazy credential run of the pattern
"https:" slash slash, any lazy run, at-sign: counts through the first
at-sign, failing if a line terminator (which the dot cannot match)
intervenes. -/
def credScan : List Char → Option Nat
  | [] => none
  | c :: cs =>
    if c = '@' then some 1
    else if c = '\n' ∨ c = '\r' then none
    else (credScan cs).map (· + 1)

/-- One pass of the first-occurrence regular-expression replacement used by
updateRemoteUrlWithToken: at each start position, if "https://" matches and
an at-sign is lazily reachable, the whole credential prefix is replaced by
"https://"; otherwise scanning advances one character. -/
def stripCredAux (httpsPat : List Char) : List Char → List Char
  | [] => []
  | c :: cs =>
    if httpsPat.isPrefixOf (c :: cs) then
      match credScan ((c :: cs).drop httpsPat.length) with
      | some k => httpsPat ++ (c :: cs).drop (httpsPat.length + k)
      | none => c :: stripCredAux httpsPat cs
    else c :: stripCredAux httpsPat cs

/-- String form of the credential-stripping replacement. -/
def stripCred (url : String) : String :=
  String.mk (stripCredAux "https://".data url.data)

/-- Escaping of double quotes in a commit message before interpolation into
the command line: each double quote becomes backslash double-quote. -/
def escapeQuotes (s : String) : String :=
  String.mk (s.data.foldr (fun c acc => if c = '"' then '\\' :: '"' :: acc else c :: acc) [])

/-- Command line built by GitService.commit for a given message. -/
def commitCmd (message : String) : String :=
  "git commit -m \"" ++ escapeQuotes message ++ "\""

/-- Capture group 1 of the JavaScript regular expression used by getRemote:
the literal "origin", one or more whitespace characters, a lazy run of
non-line-terminator characters, one or more whitespace characters, then the
literal "(fetch)".  fetchTail recognises the tail part, one or more
whitespace characters followed by the literal. -/
def fetchTail (cs : List Char) : Bool :=
  match cs with
  | [] => false
  | c :: rest =>
    c.isWhitespace && (("(fetch)".data.isPrefixOf rest) || fetchTail rest)

/-- Lazy middle run of the getRemote pattern: the shortest run of
non-line-terminator characters after which fetchTail matches; returns the
captured run. -/
def middleScan : List Char → Option (List Char)
  | [] => if fetchTail [] then some [] else none
  | c :: rest =>
    if fetchTail (c :: rest) then some []
    else if c = '\n' ∨ c = '\r' then none
    else (middleScan rest).map (c :: ·)

/-- Backtracking over the greedy first whitespace run of the getRemote
pattern: the run tries its maximal length first and gives characters back
one at a time (those characters are then available to the lazy middle run). -/
def tryWsLens (cs : List Char) : Nat → Option (List Char)
  | 0 => none
  | n + 1 =>
    match middleScan (cs.drop (n + 1)) with
    | some cap => some cap
    | none => tryWsLens cs n

/-- Attempt to match the getRemote pattern immediately after an "origin"
literal: at least one whitespace character, then the lazy middle run, then
fetchTail. -/
def originRest (cs : List Char) : Option (List Char) :=
  tryWsLens cs (cs.takeWhile Char.isWhitespace).length

/-- Leftmost-match search for the getRemote pattern: the first position
where "origin" occurs and the rest of the pattern can match wins. -/
def findOrigin : List Char → Option (List Char)
  | [] => none
  | c :: rest =>
    if "origin".data.isPrefixOf (c :: rest) then
      match originRest ((c :: rest).drop 6) with
      | some cap => some cap
      | none => findOrigin rest
    else findOrigin rest

/-- Capture group 1 of the regular expression in getRemote, applied to the
output of the remote listing. -/
def parseOriginFetch (s : String) : Option String :=
  (findOrigin s.data).map String.mk

namespace GitService

/-- GitService.getRepoName: with no workspace root, the fixed sentinel;
otherwise try the remote origin URL and extract the repository name with
the pattern; on command failure or no pattern match, fall back to the last
path segment of the workspace root. -/
def getRepoName (env : GitEnv) : GitM String :=
  match env.workspaceRoot with
  | none => (Except.ok "No Repo", [])
  | some wd =>
    match exec env "git remote get-url origin" with
    | (Except.ok remoteUrl, l) =>
      match repoNameFromUrl remoteUrl with
      | some name => (Except.ok name, l)
      | none => (Except.ok (folderName wd), l)
    | (Except.error _, l) => (Except.ok (folderName wd), l)

/-- GitService.getRepoPath: the workspace root, or the fixed sentinel. -/
def getRepoPath (env : GitEnv) : String :=
  match env.workspaceRoot with
  | none => "No workspace open"
  | some wd => wd

/-- GitService.getStatus: sentinel with no workspace root; empty short
status reports "Clean"; a failing status command reports the fixed error
sentinel; never throws. -/
def getStatus (env : GitEnv) : GitM String :=
  match env.workspaceRoot with
  | none => (Except.ok "No Repo", [])
  | some _ =>
    match exec env "git status --short" with
    | (Except.ok status, l) => (Except.ok (if status.isEmpty then "Clean" else status), l)
    | (Except.error _, l) => (Except.ok "Error getting status", l)

/-- GitService.getCurrentBranch: sentinel with no workspace root; the
trimmed branch name on success; "Unknown" on command failure. -/
def getCurrentBranch (env : GitEnv) : GitM String :=
  match env.workspaceRoot with
  | none => (Except.ok "No Repo", [])
  | some _ =>
    match exec env "git rev-parse --abbrev-ref HEAD" with
    | (Except.ok b, l) => (Except.ok b, l)
    | (Except.error _, l) => (Except.ok "Unknown", l)

/-- GitService.getRemote: sentinel with no workspace root; the first origin
fetch URL parsed from the remote listing, "No origin" when the pattern does
not match, "Unknown" on command failure. -/
def getRemote (env : GitEnv) : GitM String :=
  match env.workspaceRoot with
  | none => (Except.ok "No Repo", [])
  | some _ =>
    match exec env "git remote -v" with
    | (Except.ok remotes, l) =>
      match parseOriginFetch remotes with
      | some url => (Except.ok url, l)
      | none => (Except.ok "No origin", l)
    | (Except.error _, l) => (Except.ok "Unknown", l)

/-- GitService.commit: escapes double quotes in the message and runs the
commit command. -/
def commit (env : GitEnv) (message : String) : GitM String :=
  exec env (commitCmd message)

/-- GitService.push. -/
def push (env : GitEnv) : GitM String :=
  exec env "git push"

/-- GitService.pull. -/
def pull (env : GitEnv) : GitM String :=
  exec env "git pull"

/-- GitService.fetch. -/
def fetch (env : GitEnv) : GitM String :=
  exec env "git fetch"

/-- GitService.stash. -/
def stash (env : GitEnv) : GitM String :=
  exec env "git stash"

/-- GitService.addAll. -/
def addAll (env : GitEnv) : GitM String :=
  exec env "git add ."

/-- GitService.updateRemoteUrlWithToken: reads the origin URL; for an HTTPS
URL, strips any embedded credential, embeds the token after the scheme and
rewrites the remote; a non-HTTPS URL is left untouched and reported as
skipped; any thrown error is swallowed into the fixed failure message. -/
def updateRemoteUrlWithToken (env : GitEnv) (token : String) : GitM String :=
  match exec env "git remote get-url origin" with
  | (Except.ok remoteUrl, l1) =>
    if "https://".data.isPrefixOf remoteUrl.data then
      let cleanUrl := stripCred remoteUrl
      let newUrl := jsReplaceOnce cleanUrl "https://" ("https://" ++ token ++ "@")
      match exec env ("git remote set-url origin " ++ newUrl) with
      | (Except.ok _, l2) => (Except.ok "Remote URL updated with token", l1 ++ l2)
      | (Except.error _, l2) => (Except.ok "Failed to update remote URL", l1 ++ l2)
    else (Except.ok "Remote URL is not HTTPS, skipping token update", l1)
  | (Except.error _, l1) => (Except.ok "Failed to update remote URL", l1)

/-- GitService.setRemote: probes for an existing origin; on success updates
its URL, and any failure inside the probe-or-update block (including a
failing update) falls to the catch that adds the remote fresh; only a
failure of that add escapes, wrapped with the fixed message. -/
def setRemote (env : GitEnv) (url : String) : GitM String :=
  match exec env "git remote get-url origin" with
  | (Except.ok _, l1) =>
    match exec env ("git remote set-url origin " ++ url) with
    | (Except.ok _, l2) => (Except.ok "Remote URL updated", l1 ++ l2)
    | (Except.error _, l2) =>
      match exec env ("git remote add origin " ++ url) with
      | (Except.ok _, l3) => (Except.ok "Remote URL updated", l1 ++ l2 ++ l3)
      | (Except.error e, l3) =>
        (Except.error ("Failed to set remote: " ++ e), l1 ++ l2 ++ l3)
  | (Except.error _, l1) =>
    match exec env ("git remote add origin " ++ url) with
    | (Except.ok _, l2) => (Except.ok "Remote URL updated", l1 ++ l2)
    | (Except.error e, l2) =>
      (Except.error ("Failed to set remote: " ++ e), l1 ++ l2)

/-- GitService.createBranch. -/
def createBranch (env : GitEnv) (branchName : String) : GitM String :=
  exec env ("git checkout -b " ++ branchName)

/-- GitService.deleteBranch: always forced removal. -/
def deleteBranch (env : GitEnv) (branchName : String) : GitM String :=
  exec env ("git branch -D " ++ branchName)

/-- GitService.switchBranch. -/
def switchBranch (env : GitEnv) (branchName : String) : GitM String :=
  exec env ("git checkout " ++ branchName)

/-- GitService.mergeBranch. -/
def mergeBranch (env : GitEnv) (branchName : String) : GitM String :=
  exec env ("git merge " ++ branchName)

end GitService

/-- The loosely-typed payload a git-action message carries: the three
free-form fields the dispatcher inspects, each possibly absent. -/
structure Payload where
  message : Option String
  url : Option String
  name : Option String
deriving Repr, DecidableEq

/-- JavaScript truthiness of an optional string field: absent and empty
strings are falsy. -/
def truthy : Option String → Bool
  | none => false
  | some s => !s.isEmpty

namespace SidebarProvider

/-- The switch body of SidebarProvider.handleGitAction: the value the
result variable holds at the end of the try block (or the thrown error)
and the commands issued on the way.  An action string matching no case
falls through the switch, leaving the result at its empty initial value. -/
def runAction (env : GitEnv) (action : String) (payload : Option Payload) : GitM String :=
  match action with
  | "status" => GitService.getStatus env
  | "push" => GitService.push env
  | "pull" => GitService.pull env
  | "fetch" => GitService.fetch env
  | "commit" =>
    if truthy (payload.bind Payload.message) then
      GitService.commit env ((payload.bind Payload.message).getD "")
    else (Except.error "Commit message required", [])
  | "fast-push" =>
    seqG (GitService.addAll env) (fun _ =>
      seqG (GitService.commit env "Fast Push: Auto-commit") (fun _ =>
        GitService.push env))
  | "stash" => GitService.stash env
  | "set-remote" =>
    if truthy (payload.bind Payload.url) then
      GitService.setRemote env ((payload.bind Payload.url).getD "")
    else (Except.error "Remote URL required", [])
  | "create-branch" =>
    if truthy (payload.bind Payload.name) then
      GitService.createBranch env ((payload.bind Payload.name).getD "")
    else (Except.error "Branch name required", [])
  | "delete-branch" =>
    if truthy (payload.bind Payload.name) then
      GitService.deleteBranch env ((payload.bind Payload.name).getD "")
    else (Except.error "Branch name required", [])
  | "switch-branch" =>
    if truthy (payload.bind Payload.name) then
      GitService.switchBranch env ((payload.bind Payload.name).getD "")
    else (Except.error "Branch name required", [])
  | "merge-branch" =>
    if truthy (payload.bind Payload.name) then
      GitService.mergeBranch env ((payload.bind Payload.name).getD "")
    else (Except.error "Branch name required", [])
  | _ => (Except.ok "", [])

/-- The user-facing report emitted at the end of handleGitAction: the
information message formatted from the action name and result, or the error
message formatted from the action name and the thrown error text. -/
inductive DispatchMsg where
  | success (action output : String)
  | failure (action errMsg : String)
deriving Repr, DecidableEq

/-- The values refreshStats re-queries from a fresh GitService and posts to
the webview in its update-stats notification. -/
structure Stats where
  branch : String
  remote : String
  status : String
  repoName : String
  repoPath : String
deriving Repr, DecidableEq

/-- Value carried by a completed GitService call (the facade getters used
by refreshStats never throw, so the error case is dead there). -/
def gitValue (m : GitM String) : String :=
  match m with
  | (Except.ok s, _) => s
  | (Except.error e, _) => e

/-- The stats record refreshStats builds from a fresh GitService over the
same workspace and shell. -/
def statsOf (env : GitEnv) : Stats :=
  ⟨gitValue (GitService.getCurrentBranch env),
   gitValue (GitService.getRemote env),
   gitValue (GitService.getStatus env),
   gitValue (GitService.getRepoName env),
   GitService.getRepoPath env⟩

/-- Everything observable about one handleGitAction invocation: the report
shown to the user, the stats refresh (present exactly when refreshStats was
called, carrying the freshly re-queried values), and the commands handed to
cp.exec by the action itself. -/
structure DispatchOutcome where
  message : DispatchMsg
  refresh : Option Stats
  commands : List String
deriving Repr, DecidableEq

/-- SidebarProvider.handleGitAction: runs the switch body inside try; on
normal completion shows the success message and calls refreshStats; the
catch shows the failure message and returns without refreshing. -/
def handleGitAction (env : GitEnv) (action : String) (payload : Option Payload) :
    DispatchOutcome :=
  match runAction env action payload with
  | (Except.ok result, cmds) =>
    ⟨DispatchMsg.success action result, some (statsOf env), cmds⟩
  | (Except.error e, cmds) =>
    ⟨DispatchMsg.failure action e, none, cmds⟩

end SidebarProvider

/-- The field a given action requires before the facade is consulted, read
off the guard of the corresponding switch case; none for actions without a
mandatory field. -/
def requiredField : String → Option (Payload → Option String)
  | "commit" => some Payload.message
  | "set-remote" => some Payload.url
  | "create-branch" => some Payload.name
  | "delete-branch" => some Payload.name
  | "switch-branch" => some Payload.name
  | "merge-branch" => some Payload.name
  | _ => none

/-- The message of the error thrown when the required field is missing. -/
def validationMessage : String → String
  | "commit" => "Commit message required"
  | "set-remote" => "Remote URL required"
  | _ => "Branch name required"

/-- The closed action enumeration: the case labels of the dispatch switch. -/
def knownActions : List String :=
  ["status", "push", "pull", "fetch", "commit", "fast-push", "stash", "set-remote",
   "create-branch", "delete-branch", "switch-branch", "merge-branch"]

/-- The three command lines fast-push hands to the shell when nothing
fails, in order. -/
def fastPushCmds : List String :=
  ["git add .", commitCmd "Fast Push: Auto-commit", "git push"]

namespace AuthService

/-- A parsed body returned by the token endpoint, with the four fields the
polling loop inspects; each may be absent from the JSON. -/
structure TokenResponse where
  access_token : Option String
  error : Option String
  interval : Option Nat
  error_description : Option String
deriving Repr, DecidableEq

/-- What the polling callback does with one response: resolve the promise,
schedule another poll after the given number of seconds via setTimeout, or
reject the promise. -/
inductive PollStep where
  | resolve (token : String)
  | reschedule (delaySec : Nat)
  | rejectExpired
  | rejectDenied
  | rejectUnknown (msg : String)
deriving Repr, DecidableEq

/-- The if-chain of the polling callback, classifying one response.  The
interval parameter of pollForToken is immutable: the authorization_pending
branch always reuses it, while the slow_down branch reads the interval field
of the response (an absent field makes the arithmetic NaN, which setTimeout
clamps to an immediate callback, modelled as a zero delay). -/
def classify (interval : Nat) (r : TokenResponse) : PollStep :=
  if truthy r.access_token then PollStep.resolve (r.access_token.getD "")
  else if r.error = some "authorization_pending" then PollStep.reschedule (interval + 1)
  else if r.error = some "slow_down" then
    PollStep.reschedule (match r.interval with | some n => n + 1 | none => 0)
  else if r.error = some "expired_token" then PollStep.rejectExpired
  else if r.error = some "access_denied" then PollStep.rejectDenied
  else
    PollStep.rejectUnknown
      (if truthy r.error_description then r.error_description.getD "" else "Unknown error")

/-- How one pollForToken promise can end. -/
inductive PollResult where
  | success (token : String)
  | failure (msg : String)
  | pending
deriving Repr, DecidableEq

/-- Observable history of one polling loop over a given sequence of token
endpoint responses: how the promise settled, the seconds waited before each
re-poll (in order), and how many token requests were answered.  An empty
remaining sequence leaves the promise pending. -/
structure PollRun where
  result : PollResult
  delays : List Nat
  consumed : Nat
deriving Repr, DecidableEq

/-- The recursive polling loop of AuthService.pollForToken, run against the
list of responses the token endpoint will give to its successive requests. -/
def runPoll (interval : Nat) : List TokenResponse → PollRun
  | [] => ⟨PollResult.pending, [], 0⟩
  | r :: rs =>
    match classify interval r with
    | PollStep.resolve t => ⟨PollResult.success t, [], 1⟩
    | PollStep.rejectExpired => ⟨PollResult.failure "Token expired", [], 1⟩
    | PollStep.rejectDenied => ⟨PollResult.failure "Access denied", [], 1⟩
    | PollStep.rejectUnknown m => ⟨PollResult.failure m, [], 1⟩
    | PollStep.reschedule d =>
      let k := runPoll interval rs
      ⟨k.result, d :: k.delays, k.consumed + 1⟩

/-- A response carrying an access token and nothing else. -/
def tokenResp (t : String) : TokenResponse := ⟨some t, none, none, none⟩

/-- The authorization_pending error response. -/
def pendingResp : TokenResponse := ⟨none, some "authorization_pending", none, none⟩

/-- The slow_down error response carrying the new server interval. -/
def slowDownResp (n : Nat) : TokenResponse := ⟨none, some "slow_down", some n, none⟩

/-- The expired_token error response. -/
def expiredResp : TokenResponse := ⟨none, some "expired_token", none, none⟩

/-- The access_denied error response. -/
def deniedResp : TokenResponse := ⟨none, some "access_denied", none, none⟩

/-- An arbitrary other error response with an optional description. -/
def otherErrResp (e : String) (d : Option String) : TokenResponse := ⟨none, some e, none, d⟩

/-- The device-flow attempts alive in one session of the sidebar.
SidebarProvider.handleDeviceFlowLogin awaits initiateDeviceFlow and then
pollForToken; it stores no handle to the pending poll, registers no
disposal hook and clears no timer, and pollForToken closes only over its
own device code and interval, so starting a login can only append a fresh
independent loop — nothing in the source can remove or alter an existing
one. -/
structure DeviceFlowWorld where
  loops : List (Nat × List TokenResponse)
deriving Repr, DecidableEq

/-- Effect of one handleDeviceFlowLogin invocation on the session: a new
polling loop with its own interval and response stream is started alongside
whatever is already running. -/
def startLogin (w : DeviceFlowWorld) (interval : Nat) (responses : List TokenResponse) :
    DeviceFlowWorld :=
  ⟨w.loops ++ [(interval, responses)]⟩

/-- The settled observable behaviour of every loop in the session, in the
order the loops were started. -/
def loopRuns (w : DeviceFlowWorld) : List PollRun :=
  w.loops.map (fun p => runPoll p.1 p.2)

end AuthService

/-- A workspace whose every command succeeds with output "out". -/
def envAllOk : GitEnv := ⟨some "/w", fun _ => ExecResult.ok "out"⟩

/-- A workspace whose every command fails with message "boom". -/
def envAllFail : GitEnv := ⟨some "/w", fun _ => ExecResult.err "boom"⟩

/-- No workspace folder open. -/
def envNoWd : GitEnv := ⟨none, fun _ => ExecResult.ok ""⟩

/-- A workspace at /home/user/proj whose remote queries fail. -/
def envNoRemote : GitEnv := ⟨some "/home/user/proj", fun _ => ExecResult.err "fatal: no such remote"⟩

/-- A workspace whose origin remote is an HTTPS URL under org. -/
def envRemoteRepo : GitEnv :=
  ⟨some "/w", fun c =>
    if c = "git remote get-url origin" then ExecResult.ok "https://host/org/my-repo.git"
    else ExecResult.ok ""⟩

/-- A workspace whose origin remote is an SSH URL. -/
def envSshRemote : GitEnv := ⟨some "/w", fun _ => ExecResult.ok "ssh://git@host/org/repo.git"⟩

/-- C7: the repository-name operation follows a three-step fallback chain,
each step running only when the previous one fails or is absent: a matching
remote origin URL yields its last segment with any ".git" suffix stripped
(so "https://host/org/my-repo.git" yields "my-repo"); with no usable remote
the last path segment of the working directory is used (a path ending in
"/proj" yields "proj"); with no working directory at all the fixed
"no repository" sentinel is returned. -/
theorem c7_repo_name_fallback (env : GitEnv) :
    (env.workspaceRoot = none → GitService.getRepoName env = (Except.ok "No Repo", []))
    ∧ (∀ w url n, env.workspaceRoot = some w →
        env.shell "git remote get-url origin" = ExecResult.ok url →
        repoNameFromUrl (jsTrim url) = some n →
        GitService.getRepoName env = (Except.ok n, ["git remote get-url origin"]))
    ∧ (∀ w url, env.workspaceRoot = some w →
        env.shell "git remote get-url origin" = ExecResult.ok url →
        repoNameFromUrl (jsTrim url) = none →
        GitService.getRepoName env = (Except.ok (folderName w), ["git remote get-url origin"]))
    ∧ (∀ w m, env.workspaceRoot = some w →
        env.shell "git remote get-url origin" = ExecResult.err m →
        GitService.getRepoName env = (Except.ok (folderName w), ["git remote get-url origin"]))
    ∧ repoNameFromUrl "https://host/org/my-repo.git" = some "my-repo"
    ∧ folderName "/home/user/proj" = "proj" := by
  refine ⟨?_, ?_, ?_, ?_, by decide, by decide⟩ <;> intros <;>
    simp_all [GitService.getRepoName, GitService.exec]

/-- Witness for C7: the remote-URL step fires on a concrete environment. -/
theorem c7_repo_name_fallback_witness :
    GitService.getRepoName envRemoteRepo = (Except.ok "my-repo", ["git remote get-url origin"]) :=
  (c7_repo_name_fallback envRemoteRepo).2.1 "/w" "https://host/org/my-repo.git" "my-repo"
    rfl (by decide) (by decide)

/-- C8: updateRemoteWithToken first strips any embedded credential of an
HTTPS origin URL and then embeds the token (so with token X the rewritten
remote of "https://olduser@host/org/repo.git" is
"https://X@host/org/repo.git"); a non-HTTPS origin URL is left untouched,
no rewrite command is issued, and the operation resolves with the skip
message rather than an error. -/
theorem c8_update_remote_token (env : GitEnv) (token : String) :
    (∀ w url, env.workspaceRoot = some w →
      env.shell "git remote get-url origin" = ExecResult.ok url →
      ("https://".data.isPrefixOf (jsTrim url).data = true →
        (GitService.updateRemoteUrlWithToken env token).2
          = ["git remote get-url origin",
             "git remote set-url origin "
               ++ jsReplaceOnce (stripCred (jsTrim url)) "https://" ("https://" ++ token ++ "@")])
      ∧ ("https://".data.isPrefixOf (jsTrim url).data = false →
        GitService.updateRemoteUrlWithToken env token
          = (Except.ok "Remote URL is not HTTPS, skipping token update",
             ["git remote get-url origin"])))
    ∧ jsReplaceOnce (stripCred "https://olduser@host/org/repo.git") "https://"
        ("https://" ++ "X" ++ "@") = "https://X@host/org/repo.git" := by
  constructor
  · intro w url hw hok
    constructor
    · intro hpre
      cases hs : env.shell ("git remote set-url origin "
          ++ jsReplaceOnce (stripCred (jsTrim url)) "https://" ("https://" ++ token ++ "@")) <;>
        simp [GitService.updateRemoteUrlWithToken, GitService.exec, hw, hok, hpre, hs]
    · intro hpre
      simp [GitService.updateRemoteUrlWithToken, GitService.exec, hw, hok, hpre]
  · decide

/-- Witness for C8: the SSH remote is skipped on a concrete environment. -/
theorem c8_update_remote_token_witness :
    GitService.updateRemoteUrlWithToken envSshRemote "X"
      = (Except.ok "Remote URL is not HTTPS, skipping token update",
         ["git remote get-url origin"]) :=
  ((c8_update_remote_token envSshRemote "X").1 "/w" "ssh://git@host/org/repo.git"
    rfl (by decide)).2 (by decide)

/-- C9 counterexample: with no working directory the mutation operations do
not return a sentinel result; the facade throws "No workspace folder open"
across the operation boundary for push, pull, commit and stash. -/
theorem c9_sentinel_counterexample :
    GitService.push envNoWd = (Except.error "No workspace folder open", [])
    ∧ GitService.pull envNoWd = (Except.error "No workspace folder open", [])
    ∧ GitService.commit envNoWd "m" = (Except.error "No workspace folder open", [])
    ∧ GitService.stash envNoWd = (Except.error "No workspace folder open", []) := by
  decide

/-- C9 amended: with no working directory only the read-only queries (and
updateRemoteWithToken) return sentinel results; every mutation operation
throws "No workspace folder open" (setRemote wraps it), so absence is
handled by sentinel only on the query side. -/
theorem c9_no_workspace_behavior (env : GitEnv) (h : env.workspaceRoot = none)
    (msg url bname token : String) :
    GitService.getStatus env = (Except.ok "No Repo", [])
    ∧ GitService.getCurrentBranch env = (Except.ok "No Repo", [])
    ∧ GitService.getRemote env = (Except.ok "No Repo", [])
    ∧ GitService.getRepoName env = (Except.ok "No Repo", [])
    ∧ GitService.getRepoPath env = "No workspace open"
    ∧ GitService.updateRemoteUrlWithToken env token
        = (Except.ok "Failed to update remote URL", [])
    ∧ GitService.push env = (Except.error "No workspace folder open", [])
    ∧ GitService.pull env = (Except.error "No workspace folder open", [])
    ∧ GitService.fetch env = (Except.error "No workspace folder open", [])
    ∧ GitService.stash env = (Except.error "No workspace folder open", [])
    ∧ GitService.addAll env = (Except.error "No workspace folder open", [])
    ∧ GitService.commit env msg = (Except.error "No workspace folder open", [])
    ∧ GitService.createBranch env bname = (Except.error "No workspace folder open", [])
    ∧ GitService.deleteBranch env bname = (Except.error "No workspace folder open", [])
    ∧ GitService.switchBranch env bname = (Except.error "No workspace folder open", [])
    ∧ GitService.mergeBranch env bname = (Except.error "No workspace folder open", [])
    ∧ GitService.setRemote env url
        = (Except.error "Failed to set remote: No workspace folder open", []) := by
  simp [GitService.getStatus, GitService.getCurrentBranch, GitService.getRemote,
    GitService.getRepoName, GitService.getRepoPath, GitService.updateRemoteUrlWithToken,
    GitService.push, GitService.pull, GitService.fetch, GitService.stash, GitService.addAll,
    GitService.commit, GitService.createBranch, GitService.deleteBranch,
    GitService.switchBranch, GitService.mergeBranch, GitService.setRemote,
    GitService.exec, h]

/-- Witness for C9 amended: evaluated on the concrete empty environment. -/
theorem c9_no_workspace_behavior_witness :
    GitService.getStatus envNoWd = (Except.ok "No Repo", [])
    ∧ GitService.push envNoWd = (Except.error "No workspace folder open", []) :=
  ⟨(c9_no_workspace_behavior envNoWd rfl "m" "u" "b" "t").1,
   (c9_no_workspace_behavior envNoWd rfl "m" "u" "b" "t").2.2.2.2.2.2.1⟩

/-- C1: for every action mandating a payload field (commit needs message,
set-remote needs url, the four branch actions need name), dispatching with
the field missing reports the validation failure for that action, issues no
command to the shell, and triggers no stats refresh — the facade is never
consulted. -/
theorem c1_missing_payload_validation (env : GitEnv) (a : String) (p : Option Payload)
    (f : Payload → Option String) (hf : requiredField a = some f)
    (habs : truthy (p.bind f) = false) :
    SidebarProvider.handleGitAction env a p
      = ⟨SidebarProvider.DispatchMsg.failure a (validationMessage a), none, []⟩ := by
  unfold requiredField at hf
  split at hf <;>
    simp_all [SidebarProvider.handleGitAction, SidebarProvider.runAction, validationMessage]

/-- Witness for C1: committing with no payload on a concrete environment. -/
theorem c1_missing_payload_validation_witness :
    SidebarProvider.handleGitAction envAllOk "commit" none
      = ⟨SidebarProvider.DispatchMsg.failure "commit" (validationMessage "commit"), none, []⟩ :=
  c1_missing_payload_validation envAllOk "commit" none Payload.message rfl rfl

/-- C2: fast-push hands the shell the commands stage-all, commit with the
fixed message, push, in that strict order: the issued command list is
always an initial segment of that three-command list, and the five possible
runs are characterised exhaustively — with no workspace the action fails
before any command; a failing stage-all fails the whole action and commit
and push are never issued; a failing commit (after a successful stage-all)
fails the whole action and push is never issued; a failing push (after the
first two succeed) fails the whole action after all three commands; and
when every step succeeds all three commands are issued in order and the
action succeeds with the output of push.  Every failing case reports a
failure (and triggers no refresh). -/
theorem c2_fast_push_sequence (env : GitEnv) (p : Option Payload) :
    (∃ k, (SidebarProvider.handleGitAction env "fast-push" p).commands = fastPushCmds.take k)
    ∧ (env.workspaceRoot = none →
        SidebarProvider.handleGitAction env "fast-push" p
          = ⟨SidebarProvider.DispatchMsg.failure "fast-push" "No workspace folder open",
             none, []⟩)
    ∧ (∀ w m, env.workspaceRoot = some w →
        env.shell "git add ." = ExecResult.err m →
        SidebarProvider.handleGitAction env "fast-push" p
          = ⟨SidebarProvider.DispatchMsg.failure "fast-push" m, none, ["git add ."]⟩)
    ∧ (∀ w s m, env.workspaceRoot = some w →
        env.shell "git add ." = ExecResult.ok s →
        env.shell (commitCmd "Fast Push: Auto-commit") = ExecResult.err m →
        SidebarProvider.handleGitAction env "fast-push" p
          = ⟨SidebarProvider.DispatchMsg.failure "fast-push" m, none,
             ["git add .", commitCmd "Fast Push: Auto-commit"]⟩)
    ∧ (∀ w s t m, env.workspaceRoot = some w →
        env.shell "git add ." = ExecResult.ok s →
        env.shell (commitCmd "Fast Push: Auto-commit") = ExecResult.ok t →
        env.shell "git push" = ExecResult.err m →
        SidebarProvider.handleGitAction env "fast-push" p
          = ⟨SidebarProvider.DispatchMsg.failure "fast-push" m, none, fastPushCmds⟩)
    ∧ (∀ w s t u, env.workspaceRoot = some w →
        env.shell "git add ." = ExecResult.ok s →
        env.shell (commitCmd "Fast Push: Auto-commit") = ExecResult.ok t →
        env.shell "git push" = ExecResult.ok u →
        SidebarProvider.handleGitAction env "fast-push" p
          = ⟨SidebarProvider.DispatchMsg.success "fast-push" (jsTrim u),
             some (SidebarProvider.statsOf env), fastPushCmds⟩) := by
  refine ⟨?_, ?_, ?_, ?_, ?_, ?_⟩
  · cases hw : env.workspaceRoot with
    | none =>
      refine ⟨0, ?_⟩
      simp [SidebarProvider.handleGitAction, SidebarProvider.runAction, seqG,
        GitService.addAll, GitService.commit, GitService.push, GitService.exec, hw, fastPushCmds]
    | some w =>
      cases h1 : env.shell "git add ." with
      | err m1 =>
        refine ⟨1, ?_⟩
        simp [SidebarProvider.handleGitAction, SidebarProvider.runAction, seqG,
          GitService.addAll, GitService.commit, GitService.push, GitService.exec, hw, h1,
          fastPushCmds]
      | ok s1 =>
        cases h2 : env.shell (commitCmd "Fast Push: Auto-commit") with
        | err m2 =>
          refine ⟨2, ?_⟩
          simp [SidebarProvider.handleGitAction, SidebarProvider.runAction, seqG,
            GitService.addAll, GitService.commit, GitService.push, GitService.exec, hw, h1, h2,
            fastPushCmds]
        | ok s2 =>
          cases h3 : env.shell "git push" with
          | err m3 =>
            refine ⟨3, ?_⟩
            simp [SidebarProvider.handleGitAction, SidebarProvider.runAction, seqG,
              GitService.addAll, GitService.commit, GitService.push, GitService.exec,
              hw, h1, h2, h3, fastPushCmds]
          | ok s3 =>
            refine ⟨3, ?_⟩
            simp [SidebarProvider.handleGitAction, SidebarProvider.runAction, seqG,
              GitService.addAll, GitService.commit, GitService.push, GitService.exec,
              hw, h1, h2, h3, fastPushCmds]
  · intro hw
    simp [SidebarProvider.handleGitAction, SidebarProvider.runAction, seqG,
      GitService.addAll, GitService.commit, GitService.push, GitService.exec, hw]
  · intro w m hw h1
    simp [SidebarProvider.handleGitAction, SidebarProvider.runAction, seqG,
      GitService.addAll, GitService.commit, GitService.push, GitService.exec, hw, h1]
  · intro w s m hw h1 h2
    simp [SidebarProvider.handleGitAction, SidebarProvider.runAction, seqG,
      GitService.addAll, GitService.commit, GitService.push, GitService.exec, hw, h1, h2]
  · intro w s t m hw h1 h2 h3
    simp [SidebarProvider.handleGitAction, SidebarProvider.runAction, seqG,
      GitService.addAll, GitService.commit, GitService.push, GitService.exec,
      hw, h1, h2, h3, fastPushCmds]
  · intro w s t u hw h1 h2 h3
    simp [SidebarProvider.handleGitAction, SidebarProvider.runAction, seqG,
      GitService.addAll, GitService.commit, GitService.push, GitService.exec,
      hw, h1, h2, h3, fastPushCmds]

/-- Witness for C2: a failing stage-all stops the sequence after its first
command on a concrete environment, and on an all-succeeding environment the
full command list is issued and the action succeeds. -/
theorem c2_fast_push_sequence_witness :
    SidebarProvider.handleGitAction envAllFail "fast-push" none
      = ⟨SidebarProvider.DispatchMsg.failure "fast-push" "boom", none, ["git add ."]⟩
    ∧ SidebarProvider.handleGitAction envAllOk "fast-push" none
      = ⟨SidebarProvider.DispatchMsg.success "fast-push" (jsTrim "out"),
         some (SidebarProvider.statsOf envAllOk), fastPushCmds⟩ :=
  ⟨(c2_fast_push_sequence envAllFail none).2.2.1 "/w" "boom" rfl rfl,
   (c2_fast_push_sequence envAllOk none).2.2.2.2.2 "/w" "out" "out" "out" rfl rfl rfl rfl⟩

/-- C3 counterexample: a failing push action reports the failure and does
not trigger any stats refresh — the refresh happens only on the success
path of the dispatcher. -/
theorem c3_refresh_counterexample :
    SidebarProvider.handleGitAction envAllFail "push" none
      = ⟨SidebarProvider.DispatchMsg.failure "push" "boom", none, ["git push"]⟩ := by
  decide

/-- C3 amended: the dispatcher triggers the stats refresh (re-querying
branch, remote, status, repository name and path and emitting the
update-stats notification) exactly when the action succeeds; a failed
action reports its error and triggers no refresh. -/
theorem c3_refresh_only_on_success (env : GitEnv) (a : String) (p : Option Payload) :
    ((SidebarProvider.handleGitAction env a p).refresh = some (SidebarProvider.statsOf env)
      ↔ ∃ o, (SidebarProvider.handleGitAction env a p).message
          = SidebarProvider.DispatchMsg.success a o)
    ∧ ((SidebarProvider.handleGitAction env a p).refresh = none
      ↔ ∃ e, (SidebarProvider.handleGitAction env a p).message
          = SidebarProvider.DispatchMsg.failure a e) := by
  unfold SidebarProvider.handleGitAction
  rcases hr : SidebarProvider.runAction env a p with ⟨r, c⟩
  cases r <;> simp

/-- C10: an action string outside the closed enumeration is not rejected:
the switch has no default branch, so the dispatch falls through, is
reported as a success with an empty output, issues no command, and still
triggers the stats refresh. -/
theorem c10_unknown_action_accepted (env : GitEnv) (p : Option Payload) (a : String)
    (h : a ∉ knownActions) :
    SidebarProvider.handleGitAction env a p
      = ⟨SidebarProvider.DispatchMsg.success a "", some (SidebarProvider.statsOf env), []⟩ := by
  have hrun : SidebarProvider.runAction env a p = (Except.ok "", []) := by
    unfold SidebarProvider.runAction
    split <;> simp_all [knownActions]
  simp [SidebarProvider.handleGitAction, hrun]

/-- Witness for C10: a concrete unknown action on a concrete environment. -/
theorem c10_unknown_action_accepted_witness :
    SidebarProvider.handleGitAction envNoWd "frobnicate" none
      = ⟨SidebarProvider.DispatchMsg.success "frobnicate" "",
         some (SidebarProvider.statsOf envNoWd), []⟩ :=
  c10_unknown_action_accepted envNoWd none "frobnicate" (by decide)

/-- Evaluation of the polling callback on a slow_down response: the
reschedule delay is the interval field of the response plus one. -/
theorem classify_slowDownResp (i n : Nat) :
    AuthService.classify i (AuthService.slowDownResp n) = AuthService.PollStep.reschedule (n + 1) :=
  rfl

/-- Evaluation of the polling callback on an authorization_pending
response: the reschedule delay is the immutable interval parameter plus
one. -/
theorem classify_pendingResp (i : Nat) :
    AuthService.classify i AuthService.pendingResp = AuthService.PollStep.reschedule (i + 1) :=
  rfl

/-- C4 counterexample: with an initial interval of 5, a slow_down response
carrying interval 10 makes only the immediately-next poll wait 11 seconds;
the authorization_pending response after it reschedules with the original
interval, waiting only 6 seconds, which is below the server-supplied 10+1. -/
theorem c4_slow_down_counterexample :
    AuthService.runPoll 5 [AuthService.slowDownResp 10, AuthService.pendingResp]
      = ⟨AuthService.PollResult.pending, [11, 6], 2⟩ ∧ (6 : Nat) < 10 + 1 := by
  decide

/-- C4 amended: a slow_down response with server interval n delays only the
immediately-next poll by n+1 seconds; the loop then continues exactly as it
would have on the remaining responses with the original interval, because
the interval parameter of pollForToken is never updated (in particular a
later authorization_pending response waits the original interval plus one). -/
theorem c4_slow_down_one_shot (i n : Nat) (rs : List AuthService.TokenResponse) :
    AuthService.runPoll i (AuthService.slowDownResp n :: rs)
      = ⟨(AuthService.runPoll i rs).result, (n + 1) :: (AuthService.runPoll i rs).delays,
         (AuthService.runPoll i rs).consumed + 1⟩
    ∧ AuthService.runPoll i (AuthService.pendingResp :: rs)
      = ⟨(AuthService.runPoll i rs).result, (i + 1) :: (AuthService.runPoll i rs).delays,
         (AuthService.runPoll i rs).consumed + 1⟩ := by
  constructor <;> simp [AuthService.runPoll, classify_slowDownResp, classify_pendingResp]

/-- C5 counterexample: a first device-flow attempt whose poll resolves with
a token, superseded by a second initiate call before that response arrives,
still consumes its token-exchange request and still resolves successfully —
its success callback runs, so the supersession cancelled nothing. -/
theorem c5_cancellation_counterexample :
    AuthService.loopRuns
        (AuthService.startLogin
          (AuthService.startLogin ⟨[]⟩ 5 [AuthService.tokenResp "T"]) 5 [])
      = [⟨AuthService.PollResult.success "T", [], 1⟩,
         ⟨AuthService.PollResult.pending, [], 0⟩] := by
  decide

/-- C5 amended: the source has no cancellation mechanism: handleGitAction
stores no handle to a pending poll and clears no timer, so a later initiate
call merely starts a second independent loop — the earlier attempt keeps
polling its own response stream and settles exactly as it would have alone,
its callbacks included. -/
theorem c5_no_cancellation (w : AuthService.DeviceFlowWorld) (i : Nat)
    (t : List AuthService.TokenResponse) (i2 : Nat) (t2 : List AuthService.TokenResponse) :
    AuthService.loopRuns (AuthService.startLogin (AuthService.startLogin w i t) i2 t2)
      = AuthService.loopRuns w ++ [AuthService.runPoll i t, AuthService.runPoll i2 t2] := by
  simp [AuthService.loopRuns, AuthService.startLogin]

/-- C6 counterexample: two responses leave the classification of the claim:
a slow_down error does not terminate the flow with an unknown-error failure
(it reschedules another poll after 11 seconds), and a response carrying an
empty access_token does not resolve (its error field wins). -/
theorem c6_classification_counterexample :
    AuthService.runPoll 5 [AuthService.slowDownResp 10]
      = ⟨AuthService.PollResult.pending, [11], 1⟩
    ∧ AuthService.runPoll 5 [⟨some "", some "expired_token", none, none⟩]
      = ⟨AuthService.PollResult.failure "Token expired", [], 1⟩ := by
  decide

/-- C6 amended: every token-endpoint response is classified by the polling
loop as follows: a non-empty access_token resolves the flow with that token
(terminal, one request consumed, no reschedule); error
authorization_pending reschedules after interval+1; error slow_down
reschedules after the response interval field plus one; error expired_token
terminates with the token-expired failure and issues no further poll; error
access_denied terminates with the access-denied failure; any other error
value terminates with a failure carrying the error description of the
response when non-empty, and the fixed unknown-error text otherwise. -/
theorem c6_response_classification (i : Nat) (r : AuthService.TokenResponse)
    (rs : List AuthService.TokenResponse) :
    (truthy r.access_token = true →
      AuthService.runPoll i (r :: rs)
        = ⟨AuthService.PollResult.success (r.access_token.getD ""), [], 1⟩)
    ∧ (truthy r.access_token = false → r.error = some "authorization_pending" →
      AuthService.runPoll i (r :: rs)
        = ⟨(AuthService.runPoll i rs).result, (i + 1) :: (AuthService.runPoll i rs).delays,
           (AuthService.runPoll i rs).consumed + 1⟩)
    ∧ (truthy r.access_token = false → r.error = some "slow_down" →
      AuthService.runPoll i (r :: rs)
        = ⟨(AuthService.runPoll i rs).result,
           (match r.interval with | some n => n + 1 | none => 0)
             :: (AuthService.runPoll i rs).delays,
           (AuthService.runPoll i rs).consumed + 1⟩)
    ∧ (truthy r.access_token = false → r.error = some "expired_token" →
      AuthService.runPoll i (r :: rs)
        = ⟨AuthService.PollResult.failure "Token expired", [], 1⟩)
    ∧ (truthy r.access_token = false → r.error = some "access_denied" →
      AuthService.runPoll i (r :: rs)
        = ⟨AuthService.PollResult.failure "Access denied", [], 1⟩)
    ∧ (∀ e, truthy r.access_token = false → r.error = some e →
        e ∉ ["authorization_pending", "slow_down", "expired_token", "access_denied"] →
      AuthService.runPoll i (r :: rs)
        = ⟨AuthService.PollResult.failure
             (if truthy r.error_description then r.error_description.getD ""
              else "Unknown error"), [], 1⟩) := by
  refine ⟨?_, ?_, ?_, ?_, ?_, ?_⟩ <;> intros <;>
    simp_all [AuthService.runPoll, AuthService.classify]

/-- Witness for C6: a token response resolves on concrete inputs. -/
theorem c6_response_classification_witness :
    AuthService.runPoll 0 [AuthService.tokenResp "T"]
      = ⟨AuthService.PollResult.success "T", [], 1⟩ :=
  (c6_response_classification 0 (AuthService.tokenResp "T") []).1 (by decide)

/-- Witness for C3 amended: a concrete failed action yields no refresh. -/
theorem c3_refresh_only_on_success_witness :
    (SidebarProvider.handleGitAction envAllFail "push" none).refresh = none :=
  ((c3_refresh_only_on_success envAllFail "push" none).2).mpr ⟨"boom", by decide⟩

/-- Witness for C4 amended: evaluated at interval 5 and server interval 10. -/
theorem c4_slow_down_one_shot_witness :
    AuthService.runPoll 5 [AuthService.slowDownResp 10]
      = ⟨AuthService.PollResult.pending, [11], 1⟩ :=
  (c4_slow_down_one_shot 5 10 []).1

/-- Witness for C5 amended: evaluated on two concrete logins. -/
theorem c5_no_cancellation_witness :
    AuthService.loopRuns
        (AuthService.startLogin
          (AuthService.startLogin ⟨[]⟩ 7 [AuthService.expiredResp]) 7 [])
      = AuthService.loopRuns ⟨[]⟩
          ++ [AuthService.runPoll 7 [AuthService.expiredResp], AuthService.runPoll 7 []] :=
  c5_no_cancellation ⟨[]⟩ 7 [AuthService.expiredResp] 7 []
